import Mathlib

/-!
# pdf-merger: the download-and-merge pipeline of `internal/repository/pdf_repository.go`

Shallow embedding of `DownloadAndMerge` and its helpers.

* Go `error` values are modelled by their message (`err.Error()`), a `String`;
  `fmt.Errorf` is string concatenation, and `%w` inserts the wrapped message.
* Byte slices are lists of naturals; a `nil` slice is `none`.
* The collaborators that live outside the repository (`net/url`, `net/http`,
  `pdfcpu`'s `api.MergeRaw`) are fields of `Env`.
* The goroutines write to a channel whose capacity is `len(urls)`, so no send
  blocks and the collector receives the results in the order the workers
  finish.  That order is the parameter `order` of `DownloadAndMerge`, a
  permutation of the positions `0 .. len(urls) - 1`.
-/

namespace PdfMerger

/-- Byte slice. -/
abbrev Bytes := List Nat

/-- What `http.Get(url)` and the reads of `resp.Body` deliver: either the
request itself fails (transport error, with its message), or a response arrives
with a status code, the value of its `Content-Type` header (`""` when absent),
the bytes the body yields, and the error (if any) that ends the body stream
after those bytes instead of a clean end of file. -/
inductive GetResult where
  | transportError (msg : String)
  | response (StatusCode : Nat) (contentType : String) (body : Bytes) (readErr : Option String)
  deriving DecidableEq, Repr

/-- The part of `url.URL` the repository touches: `RawQuery` is read and
overwritten by `manualEncodeQueryParams`; every other field is carried along
unchanged in `other`. -/
structure URL where
  other : String
  RawQuery : String
  deriving DecidableEq, Repr

/-- Query values as produced by `url.ParseQuery`: keys with their values. -/
abbrev Values := List (String × List String)

/-- External collaborators of the repository. `httpGet i k u` is the answer to
the `k`-th request (counted from 0) that the worker of position `i` issues,
when it asks for `u`. -/
structure Env where
  urlParse : String → Except String URL
  urlString : URL → String
  parseQuery : String → Except String Values
  valuesEncode : Values → String
  httpGet : Nat → Nat → String → GetResult
  MergeRaw : List Bytes → Except String Bytes

/-- Substring test on character lists (`strings.Contains`). -/
def hasInfix : List Char → List Char → Bool
  | [], sub => sub.isEmpty
  | c :: cs, sub => sub.isPrefixOf (c :: cs) || hasInfix cs sub

/-- Go `strings.Contains(s, substr)`. -/
def stringsContains (s substr : String) : Bool :=
  hasInfix s.data substr.data

/-- Source `encodeURL`: parse and print again. -/
def encodeURL (env : Env) (rawURL : String) : Except String String :=
  match env.urlParse rawURL with
  | .error err => .error err
  | .ok parsedURL => .ok (env.urlString parsedURL)

/-- Source `manualEncodeQueryParams`: re-encode the query parameters, falling
back to the raw URL when the URL or its query does not parse. -/
def manualEncodeQueryParams (env : Env) (rawURL : String) : String :=
  match env.urlParse rawURL with
  | .error _ => rawURL
  | .ok parsedURL =>
    match env.parseQuery parsedURL.RawQuery with
    | .error _ => rawURL
    | .ok values => env.urlString { parsedURL with RawQuery := env.valuesEncode values }

/-- The bytes of `"%PDF-"`. -/
def pdfHeader : Bytes := [37, 80, 68, 70, 45]

/-- Source `downloadPDF`, applied to what the request for `url` delivered.
`io.ReadFull(resp.Body, header)` fails exactly when the body yields fewer than
5 bytes; `io.Copy` fails exactly when the body stream ends with an error. -/
def downloadPDFFrom (url : String) : GetResult → Except String Bytes
  | .transportError err => .error ("error downloading " ++ url ++ ": " ++ err)
  | .response StatusCode ct body readErr =>
    if StatusCode ≠ 200 then
      .error ("download failed for " ++ url ++ ": HTTP " ++ Nat.repr StatusCode)
    else if ct ≠ "application/pdf" then
      .error ("invalid content-type for " ++ url ++ ": " ++ ct)
    else if body.length < 5 ∨ body.take 5 ≠ pdfHeader then
      .error ("not a valid PDF at " ++ url)
    else
      match readErr with
      | some err => .error ("error reading PDF from " ++ url ++ ": " ++ err)
      | none => .ok (body.take 5 ++ body.drop 5)

/-- Source `downloadPDF` for the `k`-th request of worker `i`. -/
def downloadPDF (env : Env) (i k : Nat) (url : String) : Except String Bytes :=
  downloadPDFFrom url (env.httpGet i k url)

/-- Source `isHTTP400Error`. -/
def isHTTP400Error : Option String → Bool
  | none => false
  | some errStr => stringsContains errStr "HTTP 400"

/-- Source `isNonPDFError`. -/
def isNonPDFError : Option String → Bool
  | none => false
  | some errStr =>
    stringsContains errStr "invalid content-type" || stringsContains errStr "not a valid PDF"

/-- Source `downloadResult`. -/
structure downloadResult where
  index : Nat
  data : Option Bytes
  err : Option String
  deriving DecidableEq, Repr

/-- What one worker goroutine does: the result it sends on the channel and the
requests it issued, in order, each with what it delivered. -/
structure WorkerRun where
  result : downloadResult
  gets : List (String × GetResult)
  deriving DecidableEq, Repr

/-- The body of the goroutine started for position `index` and URL `url`. -/
def worker (env : Env) (index : Nat) (url : String) : WorkerRun :=
  match encodeURL env url with
  | .error err =>
    ⟨⟨index, none, some ("invalid URL format " ++ url ++ ": " ++ err)⟩, []⟩
  | .ok encodedURL =>
    let first := (encodedURL, env.httpGet index 0 encodedURL)
    match downloadPDF env index 0 encodedURL with
    | .ok pdfData => ⟨⟨index, some pdfData, none⟩, [first]⟩
    | .error err =>
      if isHTTP400Error (some err) then
        let manualEncodedURL := manualEncodeQueryParams env url
        let second := (manualEncodedURL, env.httpGet index 1 manualEncodedURL)
        match downloadPDF env index 1 manualEncodedURL with
        | .ok pdfData => ⟨⟨index, some pdfData, none⟩, [first, second]⟩
        | .error err2 =>
          if isNonPDFError (some err2) then
            ⟨⟨index, none, none⟩, [first, second]⟩
          else
            ⟨⟨index, none, some ("download failed for both encoded URLs. Original: "
              ++ encodedURL ++ ", Manual: " ++ manualEncodedURL ++ " - Error: " ++ err2)⟩,
              [first, second]⟩
      else if isNonPDFError (some err) then
        ⟨⟨index, none, none⟩, [first]⟩
      else
        ⟨⟨index, none, some ("download failed for " ++ encodedURL ++ ": " ++ err)⟩, [first]⟩

/-- The result the worker of position `i` sends (`none` when `i` is not a
position of `urls`). -/
def resultAt (env : Env) (urls : List String) (i : Nat) : Option downloadResult :=
  (urls[i]?).map (fun u => (worker env i u).result)

/-- The contents of the `results` channel when the workers finish in the order
`order`. -/
def channel (env : Env) (urls : List String) (order : List Nat) : List downloadResult :=
  order.filterMap (resultAt env urls)

/-- The collection loop `for result := range results`: returns on the first
result with an error, appends every non-nil `data`. -/
def collect : List downloadResult → List Bytes → Except String (List Bytes)
  | [], pdfDataSlice => .ok pdfDataSlice
  | result :: rest, pdfDataSlice =>
    match result.err with
    | some err => .error err
    | none =>
      match result.data with
      | some data => collect rest (pdfDataSlice ++ [data])
      | none => collect rest pdfDataSlice

/-- One call of `DownloadAndMerge`: the value returned, the arguments of every
call of `api.MergeRaw`, and the requests of every worker that was started (in
order of position; the interleaving between workers is not recorded). -/
structure Run where
  returned : Except String Bytes
  mergeCalls : List (List Bytes)
  requests : List (String × GetResult)

/-- Source `DownloadAndMerge`, for the completion order `order`. -/
def DownloadAndMerge (env : Env) (urls : List String) (order : List Nat) : Run :=
  let requests := (List.range urls.length).flatMap
    (fun i => match urls[i]? with
      | some u => (worker env i u).gets
      | none => [])
  match collect (channel env urls order) [] with
  | .error err => ⟨.error err, [], requests⟩
  | .ok pdfDataSlice =>
    let pdfBuffers := pdfDataSlice
    if pdfBuffers.length = 0 then
      ⟨.error "no valid PDF files found to merge", [], requests⟩
    else
      match env.MergeRaw pdfBuffers with
      | .error err => ⟨.error ("merge failed: " ++ err), [pdfBuffers], requests⟩
      | .ok merged => ⟨.ok merged, [pdfBuffers], requests⟩

/-- The fetch outcomes in input order, one per position of `urls`. -/
def outcomes (env : Env) (urls : List String) : List downloadResult :=
  (List.range urls.length).filterMap (resultAt env urls)

/-- Outcome `Failed`: the result carries an error. -/
def Failed (r : downloadResult) : Bool := r.err.isSome

/-- Outcome `Skipped`: neither an error nor data. -/
def Skipped (r : downloadResult) : Bool := r.err.isNone && r.data.isNone

/-- Outcome `Success`: data and no error. -/
def Success (r : downloadResult) : Bool := r.err.isNone && r.data.isSome

/-- The payload of a `Success` outcome. -/
def payload (r : downloadResult) : Option Bytes :=
  if Success r then r.data else none

/-- The payloads of the positions that resolve to `Success`, in input order. -/
def successPayloads (env : Env) (urls : List String) : List Bytes :=
  (outcomes env urls).filterMap payload

/-- The payloads `DownloadAndMerge` has collected when its loop ends. -/
def collected (env : Env) (urls : List String) (order : List Nat) : Except String (List Bytes) :=
  collect (channel env urls order) []

/-- The failure of an attempt is one of content: the response has status 200,
and either its `Content-Type` is not `application/pdf` or its body is shorter
than the 5 signature bytes or starts with other bytes. -/
def nonMatching : GetResult → Bool
  | .transportError _ => false
  | .response StatusCode ct body _ =>
    StatusCode == 200 &&
      (ct != "application/pdf" || decide (body.length < 5) || body.take 5 != pdfHeader)

/-! ## A concrete environment -/

/-- Split a character list at the first `?`. -/
def cutQuery : List Char → List Char × List Char
  | [] => ([], [])
  | c :: cs => if c = '?' then ([], cs) else ((cutQuery cs).1.cons c, (cutQuery cs).2)

/-- Printing of a parsed URL: the query is appended verbatim after `?`. -/
def demoString (u : URL) : String :=
  if u.RawQuery = "" then u.other else u.other ++ "?" ++ u.RawQuery

/-- Query escaping restricted to what the examples use: a space becomes `+`. -/
def demoEscape (s : String) : String :=
  String.mk (s.data.map (fun c => if c = ' ' then '+' else c))

/-- Split a character list at the first `=`. -/
def cutEq : List Char → List Char × List Char
  | [] => ([], [])
  | c :: cs => if c = '=' then ([], cs) else ((cutEq cs).1.cons c, (cutEq cs).2)

/-- Environment for the examples. On URLs of the shape
`scheme://host/path?key=value` whose only special character is a space inside
the value, its URL functions agree with `net/url`: `Parse` keeps the query
verbatim, `String` prints it verbatim, and `ParseQuery` followed by `Encode`
turns the space into `+`. -/
def demoEnv (httpGet : Nat → Nat → String → GetResult)
    (MergeRaw : List Bytes → Except String Bytes) : Env where
  urlParse := fun s => .ok ⟨String.mk (cutQuery s.data).1, String.mk (cutQuery s.data).2⟩
  urlString := demoString
  parseQuery := fun q =>
    if q = "" then .ok [] else .ok [(String.mk (cutEq q.data).1, [String.mk (cutEq q.data).2])]
  valuesEncode := fun vs =>
    match vs with
    | [(k, [v])] => demoEscape k ++ "=" ++ demoEscape v
    | _ => ""
  httpGet := httpGet
  MergeRaw := MergeRaw

/-- Byte concatenation, standing in for the merge primitive in examples. -/
def concatMerge (bufs : List Bytes) : Except String Bytes := .ok bufs.flatten


/-- A small network for the examples: what each URL answers, whichever worker
asks and at whichever attempt. Unknown hosts refuse the connection. -/
def demoGet : Nat → Nat → String → GetResult := fun _ _ u =>
  if u = "http://a/1.pdf" then .response 200 "application/pdf" [37, 80, 68, 70, 45, 49] none
  else if u = "http://b/2.pdf" then .response 200 "application/pdf" [37, 80, 68, 70, 45, 50] none
  else if u = "http://c/page.html" then .response 200 "text/html" [60, 104, 116, 109, 108, 62] none
  else if u = "http://d/gone.pdf" then .response 404 "text/plain" [] none
  else if u = "http://a/x.pdf?q=raw value" then .response 400 "text/plain" [] none
  else if u = "http://a/x.pdf?q=raw+value" then
    .response 200 "application/pdf" [37, 80, 68, 70, 45, 51] none
  else if u = "http://e/y.pdf?q=raw value" then .response 404 "text/plain" [] none
  else if u = "http://e/y.pdf?q=raw+value" then
    .response 200 "application/pdf" [37, 80, 68, 70, 45, 52] none
  else if u = "http://a/part.pdf" then
    .response 206 "application/pdf" [37, 80, 68, 70, 45, 53] none
  else if u = "http://a/cut.pdf" then
    .response 200 "application/pdf" [37, 80, 68, 70, 45, 54] (some "unexpected EOF")
  else if u = "http://a/short.pdf" then .response 200 "application/pdf" [37, 80] none
  else if u = "http://h/b?x=HTTP 400" then .response 500 "text/plain" [] none
  else if u = "http://h/b?x=HTTP+400" then
    .response 200 "application/pdf" [37, 80, 68, 70, 45, 55] none
  else if u = "http://h/c?x=HTTP 400" then
    .response 200 "text/html" [60, 104, 116, 109, 108, 62] none
  else if u = "http://h/c?x=HTTP+400" then .response 500 "text/plain" [] none
  else .transportError "connection refused"

/-- The example environment: `demoGet` as network, concatenation as merge. -/
def demo : Env := demoEnv demoGet concatMerge

/-- The example environment with a merge primitive that rejects its input. -/
def demoBadMerge : Env := demoEnv demoGet (fun _ => .error "corrupt input")

/-! ## Auxiliary lemmas -/

theorem hasInfix_append (a sub b : List Char) : hasInfix (a ++ (sub ++ b)) sub = true := by
  induction a with
  | nil =>
    cases hs : sub ++ b with
    | nil =>
      have : sub = [] := (List.append_eq_nil.mp hs).1
      simp [hasInfix, this]
    | cons c cs =>
      have hp : sub.isPrefixOf (c :: cs) = true := by
        rw [← hs]
        exact List.isPrefixOf_iff_prefix.mpr (List.prefix_append sub b)
      simp [hasInfix, hp]
  | cons x xs ih =>
    show (sub.isPrefixOf (x :: (xs ++ (sub ++ b))) || hasInfix (xs ++ (sub ++ b)) sub) = true
    rw [ih, Bool.or_true]

/-- The loop without an error in the channel keeps every non-nil `data`, in
channel order. -/
theorem collect_of_no_err (rs : List downloadResult) (acc : List Bytes)
    (h : ∀ r ∈ rs, r.err = none) :
    collect rs acc = .ok (acc ++ rs.filterMap (fun r => r.data)) := by
  induction rs generalizing acc with
  | nil => simp [collect]
  | cons r rest ih =>
    have hr : r.err = none := h r (List.mem_cons_self r rest)
    have hrest : ∀ x ∈ rest, x.err = none := fun x hx => h x (List.mem_cons_of_mem r hx)
    cases hd : r.data with
    | none => simp [collect, hr, hd, ih acc hrest]
    | some d => simp [collect, hr, hd, ih (acc ++ [d]) hrest]

/-- The loop with an error in the channel returns the error of one of the
results. -/
theorem collect_of_err (rs : List downloadResult) (acc : List Bytes)
    (h : ∃ r ∈ rs, r.err ≠ none) :
    ∃ r ∈ rs, ∃ e, r.err = some e ∧ collect rs acc = .error e := by
  induction rs generalizing acc with
  | nil => simp at h
  | cons r rest ih =>
    cases he : r.err with
    | some e => exact ⟨r, List.mem_cons_self r rest, e, he, by simp [collect, he]⟩
    | none =>
      have hrest : ∃ x ∈ rest, x.err ≠ none := by
        obtain ⟨x, hx, hxe⟩ := h
        rcases List.mem_cons.mp hx with rfl | hx
        · exact absurd he hxe
        · exact ⟨x, hx, hxe⟩
      cases hd : r.data with
      | none =>
        obtain ⟨x, hx, e, hxe, hc⟩ := ih acc hrest
        exact ⟨x, List.mem_cons_of_mem r hx, e, hxe, by simp [collect, he, hd, hc]⟩
      | some d =>
        obtain ⟨x, hx, e, hxe, hc⟩ := ih (acc ++ [d]) hrest
        exact ⟨x, List.mem_cons_of_mem r hx, e, hxe, by simp [collect, he, hd, hc]⟩

/-- Whatever the completion order, the channel holds the outcomes, permuted. -/
theorem channel_perm (env : Env) (urls : List String) (order : List Nat)
    (hperm : order.Perm (List.range urls.length)) :
    (channel env urls order).Perm (outcomes env urls) :=
  List.Perm.filterMap (resultAt env urls) hperm

theorem data_eq_payload_of_no_err (rs : List downloadResult) (h : ∀ r ∈ rs, r.err = none) :
    rs.filterMap (fun r => r.data) = rs.filterMap payload := by
  induction rs with
  | nil => rfl
  | cons r rest ih =>
    have hr : r.err = none := h r (List.mem_cons_self r rest)
    have hrest : ∀ x ∈ rest, x.err = none := fun x hx => h x (List.mem_cons_of_mem r hx)
    have hp : payload r = r.data := by
      cases hd : r.data <;> simp [payload, Success, hr, hd]
    simp only [List.filterMap_cons, hp, ih hrest]

theorem length_filterMap_payload (rs : List downloadResult) :
    (rs.filterMap payload).length = rs.countP Success := by
  induction rs with
  | nil => rfl
  | cons r rest ih =>
    cases hs : Success r with
    | false => simp [List.filterMap_cons, payload, hs, ih]
    | true =>
      have hd : r.data.isSome = true := by
        simp only [Success, Bool.and_eq_true] at hs
        exact hs.2
      obtain ⟨d, hd⟩ := Option.isSome_iff_exists.mp hd
      simp [List.filterMap_cons, payload, hs, hd, ih]

theorem Failed_eq_false_iff (r : downloadResult) : Failed r = false ↔ r.err = none := by
  cases h : r.err <;> simp [Failed, h]

theorem DownloadAndMerge_of_collect_error (env : Env) (urls : List String) (order : List Nat)
    (e : String) (h : collect (channel env urls order) [] = .error e) :
    (DownloadAndMerge env urls order).returned = .error e ∧
      (DownloadAndMerge env urls order).mergeCalls = [] := by
  unfold DownloadAndMerge
  simp only [h, and_self]

theorem DownloadAndMerge_of_collect_nil (env : Env) (urls : List String) (order : List Nat)
    (h : collect (channel env urls order) [] = .ok []) :
    (DownloadAndMerge env urls order).returned = .error "no valid PDF files found to merge" ∧
      (DownloadAndMerge env urls order).mergeCalls = [] := by
  unfold DownloadAndMerge
  simp [h]

theorem DownloadAndMerge_of_collect_cons (env : Env) (urls : List String) (order : List Nat)
    (p : Bytes) (ps : List Bytes) (h : collect (channel env urls order) [] = .ok (p :: ps)) :
    (DownloadAndMerge env urls order).mergeCalls = [p :: ps] ∧
      (∀ merged, env.MergeRaw (p :: ps) = .ok merged →
        (DownloadAndMerge env urls order).returned = .ok merged) ∧
      (∀ err, env.MergeRaw (p :: ps) = .error err →
        (DownloadAndMerge env urls order).returned = .error ("merge failed: " ++ err)) := by
  unfold DownloadAndMerge
  cases hm : env.MergeRaw (p :: ps) with
  | error err => simp [h, hm]
  | ok merged => simp [h, hm]

theorem stringsContains_of_data (s sub : String) (a b : List Char)
    (h : s.data = a ++ (sub.data ++ b)) : stringsContains s sub = true := by
  unfold stringsContains
  rw [h]
  exact hasInfix_append a sub.data b

/-- An attempt that fails on content yields an error that `isNonPDFError`
recognises. -/
theorem downloadPDFFrom_nonMatching (u : String) (r : GetResult) (h : nonMatching r = true) :
    ∃ e, downloadPDFFrom u r = .error e ∧ isNonPDFError (some e) = true := by
  cases r with
  | transportError msg => simp [nonMatching] at h
  | response sc ct body re =>
    simp only [nonMatching, Bool.and_eq_true, beq_iff_eq, Bool.or_eq_true, bne_iff_ne,
      decide_eq_true_eq] at h
    obtain ⟨hsc, hrest⟩ := h
    subst hsc
    by_cases hct : ct = "application/pdf"
    · have hbody : body.length < 5 ∨ body.take 5 ≠ pdfHeader := by
        rcases hrest with (h1 | h2) | h3
        · exact absurd hct h1
        · exact Or.inl h2
        · exact Or.inr h3
      refine ⟨"not a valid PDF at " ++ u, ?_, ?_⟩
      · simp [downloadPDFFrom, hct, hbody]
      · have : stringsContains ("not a valid PDF at " ++ u) "not a valid PDF" = true :=
          stringsContains_of_data _ _ [] (" at ".data ++ u.data) (by
            rw [String.data_append]
            rfl)
        simp [isNonPDFError, this]
    · refine ⟨"invalid content-type for " ++ u ++ ": " ++ ct, ?_, ?_⟩
      · simp [downloadPDFFrom, hct]
      · have : stringsContains ("invalid content-type for " ++ u ++ ": " ++ ct)
            "invalid content-type" = true :=
          stringsContains_of_data _ _ [] (" for ".data ++ (u.data ++ (": ".data ++ ct.data))) (by
            simp only [String.data_append, List.append_assoc]
            rfl)
        simp [isNonPDFError, this]

/-- A response with status 400 yields an error that `isHTTP400Error`
recognises. -/
theorem downloadPDFFrom_status_400 (u ct : String) (body : Bytes) (re : Option String) :
    ∃ e, downloadPDFFrom u (.response 400 ct body re) = .error e ∧
      isHTTP400Error (some e) = true := by
  refine ⟨"download failed for " ++ u ++ ": HTTP " ++ Nat.repr 400, ?_, ?_⟩
  · simp [downloadPDFFrom]
  · exact stringsContains_of_data _ _ ("download failed for ".data ++ (u.data ++ ": ".data)) [] (by
      simp only [String.data_append, List.append_assoc, List.append_nil]
      rfl)

/-! ## The claims -/

/-- C2: whatever the completion order, if some reference resolves to Failed then
`DownloadAndMerge` returns an error and no bytes, the error is the error of one
of the Failed outcomes, and the merge primitive is not invoked. -/
theorem C2_failed_outcome_aborts (env : Env) (urls : List String) (order : List Nat)
    (hperm : order.Perm (List.range urls.length))
    (hfail : ∃ r ∈ outcomes env urls, Failed r = true) :
    (∃ r ∈ outcomes env urls, ∃ e, Failed r = true ∧ r.err = some e ∧
        (DownloadAndMerge env urls order).returned = .error e) ∧
      (DownloadAndMerge env urls order).mergeCalls = [] := by
  have hch := channel_perm env urls order hperm
  obtain ⟨r, hr, hrf⟩ := hfail
  have hex : ∃ x ∈ channel env urls order, x.err ≠ none := by
    refine ⟨r, hch.mem_iff.mpr hr, ?_⟩
    intro hnone
    simp [Failed, hnone] at hrf
  obtain ⟨x, hx, e, hxe, hc⟩ := collect_of_err (channel env urls order) [] hex
  have hd := DownloadAndMerge_of_collect_error env urls order e hc
  exact ⟨⟨x, hch.mem_iff.mp hx, e, by simp [Failed, hxe], hxe, hd.1⟩, hd.2⟩

/-- Witness of C2: the second of three references answers 404, and the workers
finish in the order 2, 0, 1. -/
theorem C2_failed_outcome_aborts_witness :
    (DownloadAndMerge demo ["http://a/1.pdf", "http://d/gone.pdf", "http://b/2.pdf"]
        [2, 0, 1]).mergeCalls = [] :=
  (C2_failed_outcome_aborts demo ["http://a/1.pdf", "http://d/gone.pdf", "http://b/2.pdf"]
    [2, 0, 1] (by decide) (by decide)).2

/-- C3: for a URL list whose references all resolve to Skipped,
`DownloadAndMerge` returns the error "no valid PDF files found to merge" (the
"no valid documents" error) and does not invoke the merge primitive, whatever
the completion order. The list need not even be assumed non-empty. -/
theorem C3_all_skipped_no_valid_documents (env : Env) (urls : List String) (order : List Nat)
    (hperm : order.Perm (List.range urls.length))
    (hskip : ∀ r ∈ outcomes env urls, Skipped r = true) :
    (DownloadAndMerge env urls order).returned = .error "no valid PDF files found to merge" ∧
      (DownloadAndMerge env urls order).mergeCalls = [] := by
  have hch := channel_perm env urls order hperm
  have hsk : ∀ r ∈ channel env urls order, r.err = none ∧ r.data = none := by
    intro r hr
    have h := hskip r (hch.mem_iff.mp hr)
    simpa [Skipped] using h
  have hc := collect_of_no_err (channel env urls order) [] (fun r hr => (hsk r hr).1)
  have hnil : (channel env urls order).filterMap (fun r => r.data) = [] := by
    rw [List.filterMap_eq_nil_iff]
    exact fun r hr => (hsk r hr).2
  rw [hnil] at hc
  exact DownloadAndMerge_of_collect_nil env urls order hc

/-- Witness of C3: two references that both answer with `text/html`. -/
theorem C3_all_skipped_no_valid_documents_witness :
    (DownloadAndMerge demo ["http://c/page.html", "http://c/page.html"] [1, 0]).returned
        = .error "no valid PDF files found to merge" ∧
      (DownloadAndMerge demo ["http://c/page.html", "http://c/page.html"] [1, 0]).mergeCalls
        = [] :=
  C3_all_skipped_no_valid_documents demo ["http://c/page.html", "http://c/page.html"] [1, 0]
    (by decide) (by decide)

/-- C8: for the empty URL list `DownloadAndMerge` returns an error, no worker
issues a request, and the merge primitive is not invoked. -/
theorem C8_empty_list_error_without_requests (env : Env) (order : List Nat) :
    (DownloadAndMerge env [] order).returned = .error "no valid PDF files found to merge" ∧
      (DownloadAndMerge env [] order).requests = [] ∧
      (DownloadAndMerge env [] order).mergeCalls = [] := by
  have hch : channel env [] order = [] := by
    unfold channel
    rw [List.filterMap_eq_nil_iff]
    intro i _
    simp [resultAt]
  have hc : collect (channel env [] order) [] = .ok [] := by
    rw [hch]
    rfl
  have hd := DownloadAndMerge_of_collect_nil env [] order hc
  refine ⟨hd.1, ?_, hd.2⟩
  unfold DownloadAndMerge
  simp [hc]

/-- C9: with no Failed outcome and at least one Success, `DownloadAndMerge`
calls the merge primitive exactly once, on the payloads its loop collected; it
returns the primitive's bytes unchanged, and when the primitive fails it returns
no bytes and the primitive's error behind the prefix "merge failed: ". -/
theorem C9_merge_invoked_once (env : Env) (urls : List String) (order : List Nat)
    (hperm : order.Perm (List.range urls.length))
    (hnofail : ∀ r ∈ outcomes env urls, Failed r = false)
    (hsucc : ∃ r ∈ outcomes env urls, Success r = true) :
    ∃ payloads, collected env urls order = .ok payloads ∧
      payloads = (channel env urls order).filterMap payload ∧
      (DownloadAndMerge env urls order).mergeCalls = [payloads] ∧
      (∀ merged, env.MergeRaw payloads = .ok merged →
        (DownloadAndMerge env urls order).returned = .ok merged) ∧
      (∀ err, env.MergeRaw payloads = .error err →
        (DownloadAndMerge env urls order).returned = .error ("merge failed: " ++ err)) := by
  have hch := channel_perm env urls order hperm
  have hne : ∀ r ∈ channel env urls order, r.err = none := fun r hr =>
    (Failed_eq_false_iff r).mp (hnofail r (hch.mem_iff.mp hr))
  have hc := collect_of_no_err (channel env urls order) [] hne
  rw [List.nil_append, data_eq_payload_of_no_err _ hne] at hc
  obtain ⟨r, hr, hrs⟩ := hsucc
  have hlen : 0 < ((channel env urls order).filterMap payload).length := by
    rw [length_filterMap_payload]
    exact List.countP_pos_iff.mpr ⟨r, hch.mem_iff.mpr hr, hrs⟩
  cases hp : (channel env urls order).filterMap payload with
  | nil => simp [hp] at hlen
  | cons p ps =>
    rw [hp] at hc
    exact ⟨p :: ps, hc, rfl, DownloadAndMerge_of_collect_cons env urls order p ps hc⟩

/-- Witness of C9: a skipped page between two documents, finishing in the order
1, 0, 2, with a merge primitive that rejects its input. -/
theorem C9_merge_invoked_once_witness :
    ∃ payloads,
      collected demoBadMerge ["http://a/1.pdf", "http://c/page.html", "http://b/2.pdf"] [1, 0, 2]
        = .ok payloads ∧
      payloads = (channel demoBadMerge
        ["http://a/1.pdf", "http://c/page.html", "http://b/2.pdf"] [1, 0, 2]).filterMap payload ∧
      (DownloadAndMerge demoBadMerge
        ["http://a/1.pdf", "http://c/page.html", "http://b/2.pdf"] [1, 0, 2]).mergeCalls
        = [payloads] ∧
      (∀ merged, demoBadMerge.MergeRaw payloads = .ok merged →
        (DownloadAndMerge demoBadMerge
          ["http://a/1.pdf", "http://c/page.html", "http://b/2.pdf"] [1, 0, 2]).returned
          = .ok merged) ∧
      (∀ err, demoBadMerge.MergeRaw payloads = .error err →
        (DownloadAndMerge demoBadMerge
          ["http://a/1.pdf", "http://c/page.html", "http://b/2.pdf"] [1, 0, 2]).returned
          = .error ("merge failed: " ++ err)) :=
  C9_merge_invoked_once demoBadMerge ["http://a/1.pdf", "http://c/page.html", "http://b/2.pdf"]
    [1, 0, 2] (by decide) (by decide) (by decide)

/-- C10: with no Failed outcome, whatever the completion order, the payloads
the loop collects are a permutation of the Success payloads, and there are as
many of them as there are Success outcomes. -/
theorem C10_collected_is_permutation (env : Env) (urls : List String) (order : List Nat)
    (hperm : order.Perm (List.range urls.length))
    (hnofail : ∀ r ∈ outcomes env urls, Failed r = false) :
    ∃ payloads, collected env urls order = .ok payloads ∧
      payloads.Perm (successPayloads env urls) ∧
      payloads.length = (outcomes env urls).countP Success := by
  have hch := channel_perm env urls order hperm
  have hne : ∀ r ∈ channel env urls order, r.err = none := fun r hr =>
    (Failed_eq_false_iff r).mp (hnofail r (hch.mem_iff.mp hr))
  have hc := collect_of_no_err (channel env urls order) [] hne
  rw [List.nil_append, data_eq_payload_of_no_err _ hne] at hc
  have hpp : ((channel env urls order).filterMap payload).Perm (successPayloads env urls) :=
    List.Perm.filterMap payload hch
  refine ⟨_, hc, hpp, ?_⟩
  rw [hpp.length_eq]
  exact length_filterMap_payload (outcomes env urls)

/-- Witness of C10: a skipped page between two documents, finishing in the
order 2, 1, 0. -/
theorem C10_collected_is_permutation_witness :
    ∃ payloads,
      collected demo ["http://a/1.pdf", "http://c/page.html", "http://b/2.pdf"] [2, 1, 0]
        = .ok payloads ∧
      payloads.Perm (successPayloads demo
        ["http://a/1.pdf", "http://c/page.html", "http://b/2.pdf"]) ∧
      payloads.length = (outcomes demo
        ["http://a/1.pdf", "http://c/page.html", "http://b/2.pdf"]).countP Success :=
  C10_collected_is_permutation demo ["http://a/1.pdf", "http://c/page.html", "http://b/2.pdf"]
    [2, 1, 0] (by decide) (by decide)

/-- C1, evaluated where it fails: two references that both resolve to Success,
the second finishing first. The merge primitive is handed the second payload
before the first, while the Success payloads in input order are the first and
then the second. -/
theorem C1_merge_input_follows_completion_order :
    (∀ r ∈ outcomes demo ["http://a/1.pdf", "http://b/2.pdf"], Success r = true) ∧
      List.Perm [1, 0] (List.range ["http://a/1.pdf", "http://b/2.pdf"].length) ∧
      successPayloads demo ["http://a/1.pdf", "http://b/2.pdf"]
        = [[37, 80, 68, 70, 45, 49], [37, 80, 68, 70, 45, 50]] ∧
      (DownloadAndMerge demo ["http://a/1.pdf", "http://b/2.pdf"] [1, 0]).mergeCalls
        = [[[37, 80, 68, 70, 45, 50], [37, 80, 68, 70, 45, 49]]] ∧
      (DownloadAndMerge demo ["http://a/1.pdf", "http://b/2.pdf"] [1, 0]).returned
        = .ok [37, 80, 68, 70, 45, 50, 37, 80, 68, 70, 45, 49] ∧
      (DownloadAndMerge demo ["http://a/1.pdf", "http://b/2.pdf"] [0, 1]).returned
        = .ok [37, 80, 68, 70, 45, 49, 37, 80, 68, 70, 45, 50] := by
  refine ⟨by decide, by decide, by decide, by decide, by rfl, by rfl⟩

/-- C4, evaluated where it fails. A reference whose query holds the words
"not a valid PDF" and whose host refuses the connection is Skipped, not Failed;
a reference whose query holds the words "HTTP 400" and which answers 500 is
retried (and here the retry succeeds). In both, the text of the URL inside the
error message is what `isNonPDFError` / `isHTTP400Error` match. -/
theorem C4_url_text_decides_classification :
    demoGet 0 0 "http://h/a?x=not a valid PDF" = .transportError "connection refused" ∧
      (worker demo 0 "http://h/a?x=not a valid PDF").result = ⟨0, none, none⟩ ∧
      (worker demo 0 "http://h/a?x=not a valid PDF").gets
        = [("http://h/a?x=not a valid PDF", .transportError "connection refused")] ∧
      demoGet 0 0 "http://h/b?x=HTTP 400" = .response 500 "text/plain" [] none ∧
      (worker demo 0 "http://h/b?x=HTTP 400").result
        = ⟨0, some [37, 80, 68, 70, 45, 55], none⟩ ∧
      (worker demo 0 "http://h/b?x=HTTP 400").gets
        = [("http://h/b?x=HTTP 400", .response 500 "text/plain" [] none),
           ("http://h/b?x=HTTP+400",
            .response 200 "application/pdf" [37, 80, 68, 70, 45, 55] none)] := by
  refine ⟨by decide, by decide, by decide, by decide, by decide, by decide⟩

/-- What does hold of content failures: when the last request a worker makes
(its only one, or the retry) fails on content (status 200, but a `Content-Type`
other than `application/pdf` or a short or wrong signature), the result is
Skipped, and so not Failed. -/
theorem worker_skips_when_last_request_nonMatching (env : Env) (index : Nat) (url u : String)
    (r : GetResult)
    (hlast : (worker env index url).gets.getLast? = some (u, r))
    (hmis : nonMatching r = true) :
    (worker env index url).result = ⟨index, none, none⟩ ∧
      Skipped (worker env index url).result = true ∧
      Failed (worker env index url).result = false := by
  have hres : (worker env index url).result = ⟨index, none, none⟩ := by
    obtain ⟨e, he, hnon⟩ := downloadPDFFrom_nonMatching u r hmis
    unfold worker at hlast ⊢
    cases henc : encodeURL env url with
    | error err => simp [henc] at hlast
    | ok enc =>
      simp only [henc] at hlast ⊢
      cases h1 : downloadPDF env index 0 enc with
      | ok d =>
        simp only [h1, List.getLast?_singleton, Option.some.injEq, Prod.mk.injEq] at hlast
        obtain ⟨hu, hr⟩ := hlast
        subst hu
        rw [downloadPDF, hr, he] at h1
        cases h1
      | error e1 =>
        simp only [h1] at hlast ⊢
        by_cases h400 : isHTTP400Error (some e1) = true
        · simp only [h400, if_true] at hlast ⊢
          cases h2 : downloadPDF env index 1 (manualEncodeQueryParams env url) with
          | ok d =>
            simp only [h2, List.getLast?_cons_cons, List.getLast?_singleton, Option.some.injEq,
              Prod.mk.injEq] at hlast
            obtain ⟨hu, hr⟩ := hlast
            subst hu
            rw [downloadPDF, hr, he] at h2
            cases h2
          | error e2 =>
            simp only [h2] at hlast ⊢
            by_cases hn2 : isNonPDFError (some e2) = true
            · simp only [hn2, if_true]
            · simp only [hn2, Bool.false_eq_true, if_false, List.getLast?_cons_cons,
                List.getLast?_singleton, Option.some.injEq, Prod.mk.injEq] at hlast
              obtain ⟨hu, hr⟩ := hlast
              subst hu
              rw [downloadPDF, hr, he] at h2
              cases h2
              exact absurd hnon hn2
        · simp only [h400, Bool.false_eq_true, if_false] at hlast ⊢
          by_cases hn1 : isNonPDFError (some e1) = true
          · simp only [hn1, if_true]
          · simp only [hn1, Bool.false_eq_true, if_false, List.getLast?_singleton,
              Option.some.injEq, Prod.mk.injEq] at hlast
            obtain ⟨hu, hr⟩ := hlast
            subst hu
            rw [downloadPDF, hr, he] at h1
            cases h1
            exact absurd hnon hn1
  refine ⟨hres, ?_, ?_⟩ <;> simp [hres, Skipped, Failed]

/-- C5, evaluated where it fails. The first attempt for a reference whose
query holds the words "HTTP 400" answers 200 with `text/html`: a failure on
content. Its error message embeds the URL, so `isHTTP400Error` is true and is
tested before `isNonPDFError`; the worker retries, the re-encoded URL answers
500, and the result is Failed instead of Skipped. -/
theorem C5_content_failure_with_400_in_url_is_failed :
    encodeURL demo "http://h/c?x=HTTP 400" = .ok "http://h/c?x=HTTP 400" ∧
      demoGet 0 0 "http://h/c?x=HTTP 400"
        = .response 200 "text/html" [60, 104, 116, 109, 108, 62] none ∧
      nonMatching (demoGet 0 0 "http://h/c?x=HTTP 400") = true ∧
      downloadPDF demo 0 0 "http://h/c?x=HTTP 400"
        = .error "invalid content-type for http://h/c?x=HTTP 400: text/html" ∧
      isHTTP400Error (some "invalid content-type for http://h/c?x=HTTP 400: text/html")
        = true ∧
      (worker demo 0 "http://h/c?x=HTTP 400").gets
        = [("http://h/c?x=HTTP 400",
            .response 200 "text/html" [60, 104, 116, 109, 108, 62] none),
           ("http://h/c?x=HTTP+400", .response 500 "text/plain" [] none)] ∧
      (worker demo 0 "http://h/c?x=HTTP 400").result
        = ⟨0, none, some ("download failed for both encoded URLs. " ++
            "Original: http://h/c?x=HTTP 400, Manual: http://h/c?x=HTTP+400 - Error: " ++
            "download failed for http://h/c?x=HTTP+400: HTTP 500")⟩ ∧
      Failed (worker demo 0 "http://h/c?x=HTTP 400").result = true ∧
      Skipped (worker demo 0 "http://h/c?x=HTTP 400").result = false := by
  refine ⟨by rfl, by decide, by decide, by rfl, by decide, by decide, by rfl, by decide,
    by decide⟩

/-- C6 as stated fails for a 400-class status other than 400: the first
attempt answers 404, the re-encoded URL would deliver a valid document, and yet
the worker makes no retry and sends a Failed result. -/
theorem C6_status_404_is_not_retried :
    demoGet 0 0 "http://e/y.pdf?q=raw value" = .response 404 "text/plain" [] none ∧
      manualEncodeQueryParams demo "http://e/y.pdf?q=raw value" = "http://e/y.pdf?q=raw+value" ∧
      downloadPDF demo 0 1 "http://e/y.pdf?q=raw+value" = .ok [37, 80, 68, 70, 45, 52] ∧
      (worker demo 0 "http://e/y.pdf?q=raw value").gets
        = [("http://e/y.pdf?q=raw value", .response 404 "text/plain" [] none)] ∧
      (worker demo 0 "http://e/y.pdf?q=raw value").result
        = ⟨0, none, some ("download failed for http://e/y.pdf?q=raw value: " ++
            "download failed for http://e/y.pdf?q=raw value: HTTP 404")⟩ := by
  refine ⟨by decide, by decide, by rfl, by decide, by decide⟩

/-- C6, amended: when the first attempt answers with status 400 and the request
for `manualEncodeQueryParams url` delivers a complete response that passes
validation, the outcome is Success with the bytes of that response, and the
worker has made exactly two requests: the first attempt and one retry. -/
theorem C6_retry_after_status_400 (env : Env) (index : Nat) (url encodedURL ct0 : String)
    (body0 body : Bytes) (re0 : Option String)
    (henc : encodeURL env url = .ok encodedURL)
    (hfirst : env.httpGet index 0 encodedURL = .response 400 ct0 body0 re0)
    (hretry : env.httpGet index 1 (manualEncodeQueryParams env url)
      = .response 200 "application/pdf" body none)
    (hsig : body.take 5 = pdfHeader) :
    (worker env index url).result = ⟨index, some body, none⟩ ∧
      (worker env index url).gets
        = [(encodedURL, .response 400 ct0 body0 re0),
           (manualEncodeQueryParams env url, .response 200 "application/pdf" body none)] := by
  obtain ⟨e, he, h400⟩ := downloadPDFFrom_status_400 encodedURL ct0 body0 re0
  have h1 : downloadPDF env index 0 encodedURL = .error e := by
    rw [downloadPDF, hfirst, he]
  have hlen : ¬ body.length < 5 := by
    intro hlt
    have h5 : (body.take 5).length = 5 := by rw [hsig]; rfl
    rw [List.length_take] at h5
    omega
  have h2 : downloadPDF env index 1 (manualEncodeQueryParams env url) = .ok body := by
    have hb : pdfHeader ++ body.drop 5 = body := by
      rw [← hsig]
      exact List.take_append_drop 5 body
    rw [downloadPDF, hretry]
    simp [downloadPDFFrom, hsig, hlen, hb]
  unfold worker
  simp only [henc, h1, h400, if_true, h2, hfirst, hretry, and_self]

/-- Witness of C6: the raw query answers 400, the re-encoded one delivers a
document. -/
theorem C6_retry_after_status_400_witness :
    (worker demo 0 "http://a/x.pdf?q=raw value").result
        = ⟨0, some [37, 80, 68, 70, 45, 51], none⟩ ∧
      (worker demo 0 "http://a/x.pdf?q=raw value").gets
        = [("http://a/x.pdf?q=raw value", .response 400 "text/plain" [] none),
           (manualEncodeQueryParams demo "http://a/x.pdf?q=raw value",
            .response 200 "application/pdf" [37, 80, 68, 70, 45, 51] none)] :=
  C6_retry_after_status_400 demo 0 "http://a/x.pdf?q=raw value" "http://a/x.pdf?q=raw value"
    "text/plain" [] [37, 80, 68, 70, 45, 51] none (by rfl) (by decide) (by decide) (by decide)

/-- C7 as stated fails twice: a response with the success status 206, the
content type `application/pdf` and a body that starts with the signature is
rejected for its status; and a response with status 200 whose body starts with
the signature but whose stream breaks off with an error yields a read error
instead of the body. -/
theorem C7_status_206_is_rejected :
    demoGet 0 0 "http://a/part.pdf"
        = .response 206 "application/pdf" [37, 80, 68, 70, 45, 53] none ∧
      List.take 5 [37, 80, 68, 70, 45, 53] = pdfHeader ∧
      downloadPDF demo 0 0 "http://a/part.pdf"
        = .error "download failed for http://a/part.pdf: HTTP 206" ∧
      demoGet 0 0 "http://a/cut.pdf"
        = .response 200 "application/pdf" [37, 80, 68, 70, 45, 54] (some "unexpected EOF") ∧
      downloadPDF demo 0 0 "http://a/cut.pdf"
        = .error "error reading PDF from http://a/cut.pdf: unexpected EOF" := by
  refine ⟨by decide, by decide, by rfl, by decide, by rfl⟩

/-- C7, amended: for a response with status 200 and `Content-Type`
`application/pdf`, `downloadPDF` returns the whole body unchanged when the body
starts with the 5 bytes of "%PDF-" and is read to its end without error, and
fails with "not a valid PDF at <url>" when the body is shorter than 5 bytes or
starts with other bytes. -/
theorem C7_downloadPDF_validates_signature (env : Env) (i k : Nat) (url : String)
    (body : Bytes) (readErr : Option String)
    (hget : env.httpGet i k url = .response 200 "application/pdf" body readErr) :
    (body.take 5 = pdfHeader → readErr = none → downloadPDF env i k url = .ok body) ∧
      (body.length < 5 ∨ body.take 5 ≠ pdfHeader →
        downloadPDF env i k url = .error ("not a valid PDF at " ++ url)) := by
  constructor
  · intro hsig hre
    have hlen : ¬ body.length < 5 := by
      intro hlt
      have h5 : (body.take 5).length = 5 := by rw [hsig]; rfl
      rw [List.length_take] at h5
      omega
    have hb : pdfHeader ++ body.drop 5 = body := by
      rw [← hsig]
      exact List.take_append_drop 5 body
    rw [downloadPDF, hget, hre]
    simp [downloadPDFFrom, hsig, hlen, hb]
  · intro hbad
    rw [downloadPDF, hget]
    simp [downloadPDFFrom, hbad]

/-- Witness of C7: a six-byte document, and a two-byte body. -/
theorem C7_downloadPDF_validates_signature_witness :
    downloadPDF demo 0 0 "http://a/1.pdf" = .ok [37, 80, 68, 70, 45, 49] ∧
      downloadPDF demo 0 0 "http://a/short.pdf" = .error "not a valid PDF at http://a/short.pdf" :=
  ⟨(C7_downloadPDF_validates_signature demo 0 0 "http://a/1.pdf" [37, 80, 68, 70, 45, 49] none
      (by decide)).1 (by decide) rfl,
   (C7_downloadPDF_validates_signature demo 0 0 "http://a/short.pdf" [37, 80] none
      (by decide)).2 (by decide)⟩

end PdfMerger
